import Mathlib

/-!
Verification of the picocom terminal program (`src/picocom.c`) against its
natural-language specification.  The C code is shallowly embedded: C `int`
values become `Int` (with explicit two's-complement wrapping where an
operation can overflow 32 bits), byte values become `Nat` (0–255), buffers
become total functions `Nat → Nat` together with a length, and the effects of
the interactive loop (writes to the controlling terminal, external-command
invocations, exit) are collected in an explicit output record.
-/

namespace Picocom

/-- Truncated (C-style) division for a positive divisor: rounds toward zero.
C's `/` on signed operands truncates; for `a ≥ 0` this is ordinary floor
division and for `a < 0` it is the negation of the floor division of `-a`. -/
def cdiv (a b : Int) : Int :=
  if 0 ≤ a then a / b else -((-a) / b)

/-- Two's-complement wrap of an arithmetic result into a signed 32-bit `int`
(the type of `baud` in the C source). -/
def wrap32 (x : Int) : Int :=
  (x + 2 ^ 31) % 2 ^ 32 - 2 ^ 31

/-- Reduction of an arithmetic result modulo 2^32, as happens on assignment to
the C `unsigned int` variables `diff_sec` and `diff_msec`. -/
def wrap32u (x : Int) : Int :=
  x % 2 ^ 32

/-- `baud_up` from picocom.c lines 300–313.  The doubling is a 32-bit signed
multiplication, hence the explicit wrap. -/
def baud_up (baud : Int) : Int :=
  let baud := if baud < 300 then 300
              else if baud = 38400 then 57600
              else wrap32 (baud * 2)
  if baud > 115200 then 115200 else baud

/-- `baud_down` from picocom.c lines 315–329.  `baud / 2` is C signed
division (truncation toward zero). -/
def baud_down (baud : Int) : Int :=
  let baud := if baud > 115200 then 115200
              else if baud = 57600 then 38400
              else cdiv baud 2
  if baud < 300 then 300 else baud

/-- Flow-control modes (`enum flowcntrl_e` used through term.h). -/
inductive Flow where
  | FC_NONE
  | FC_RTSCTS
  | FC_XONXOFF
deriving DecidableEq

/-- Parity modes (`enum parity_e` used through term.h). -/
inductive Parity where
  | P_NONE
  | P_EVEN
  | P_ODD
deriving DecidableEq

/-- `flow_next` from picocom.c lines 331–354: returns the successor mode and
the string stored through the `flow_str` out-parameter. -/
def flow_next : Flow → Flow × String
  | .FC_NONE => (.FC_RTSCTS, "RTS/CTS")
  | .FC_RTSCTS => (.FC_XONXOFF, "xon/xoff")
  | .FC_XONXOFF => (.FC_NONE, "none")

/-- `parity_next` from picocom.c lines 356–379. -/
def parity_next : Parity → Parity × String
  | .P_NONE => (.P_EVEN, "even")
  | .P_EVEN => (.P_ODD, "odd")
  | .P_ODD => (.P_NONE, "none")

/-- `bits_next` from picocom.c lines 381–388: `bits++; if (bits > 8) bits = 5`. -/
def bits_next (bits : Int) : Int :=
  if bits + 1 > 8 then 5 else bits + 1

/-- The mutable session configuration `opts` (picocom.c lines 69–101),
restricted to the fields the interactive loop reads or writes.  `escape` is
an `unsigned char`, modelled as `Nat`. -/
structure Opts where
  baud : Int
  flow : Flow
  flow_str : String
  parity : Parity
  parity_str : String
  databits : Int
  escape : Nat
  send_cmd : String
  receive_cmd : String
deriving DecidableEq

/-- The initializer of `opts` (picocom.c lines 85–101). -/
def defaultOpts : Opts :=
  { baud := 115200
    flow := .FC_NONE
    flow_str := "none"
    parity := .P_NONE
    parity_str := "none"
    databits := 8
    escape := 1
    send_cmd := "ascii_xfr -s -v -l10"
    receive_cmd := "rz -vv" }

/-- `TTY_Q_SZ` (picocom.c line 496). -/
def TTY_Q_SZ : Nat := 256

/-- `struct tty_q` (picocom.c lines 498–501): a length and a 256-byte array.
The array is modelled as a total function so that the source's write at
index 256 (one past the end) is representable. -/
structure TtyQ where
  len : Nat
  buff : Nat → Nat

/-- The bytes currently queued, in FIFO order: `buff[0] … buff[len-1]`. -/
def liveBytes (q : TtyQ) : List Nat :=
  (List.range q.len).map q.buff

/-- The queue-append snippet duplicated at picocom.c lines 561–564 and
687–690: `if (tty_q.len <= TTY_Q_SZ) tty_q.buff[tty_q.len++] = c; else
fd_printf(STO, "\x07");`.  Returns the new queue and the bytes written to
the controlling-terminal output (a BEL on overflow). -/
def tq_put (q : TtyQ) (c : Nat) : TtyQ × String :=
  if q.len ≤ TTY_Q_SZ then
    ({ len := q.len + 1, buff := fun i => if i = q.len then c else q.buff i }, "")
  else
    (q, "\x07")

/-- The serial-drain step (picocom.c lines 747–753): after `write` accepted
`n` bytes, `memcpy(tty_q.buff, tty_q.buff + n, tty_q.len - n); tty_q.len -=
n;` shifts the unwritten bytes to the front (the forward element-wise copy
the source relies on). -/
def tq_drain (q : TtyQ) (n : Nat) : TtyQ :=
  { len := q.len - n
    buff := fun i => if i < q.len - n then q.buff (n + i) else q.buff i }

/-- Interpreter state of the loop (picocom.c lines 513–516). -/
inductive CIState where
  | ST_COMMAND
  | ST_TRANSPARENT
deriving DecidableEq

/-- `struct timeval` as used by the timestamp code: seconds and
microseconds. -/
structure TimeVal where
  sec : Int
  usec : Int
deriving DecidableEq

/-- The state the loop threads between iterations: the session config, the
outbound queue, the interpreter state and `dtr_up` (locals of `loop`), and
the timestamp globals `tty_time_enable`, `tty_time` (picocom.c lines
504–508) with the local reference time `tv_ref`. -/
structure LoopSt where
  opts : Opts
  q : TtyQ
  ci : CIState
  dtr_up : Bool
  tty_time_enable : Nat
  tty_time : Nat
  tv_ref : TimeVal

/-- Initial state on entering `loop` (picocom.c lines 507–508 and 529–531):
`tty_q.len = 0`, `state = ST_TRANSPARENT`, `dtr_up = 0`, `tty_time =
TTY_TIME_RESET` (2), `tty_time_enable = 2`.  `tv_ref` is an uninitialized
local; it is modelled as zero (it is overwritten before first use). -/
def initSt : LoopSt :=
  { opts := defaultOpts
    q := { len := 0, buff := fun _ => 0 }
    ci := .ST_TRANSPARENT
    dtr_up := false
    tty_time_enable := 2
    tty_time := 2
    tv_ref := { sec := 0, usec := 0 } }

/-- Result of `fd_readline` as observed by the command dispatch: a line
(`r ≥ 0`), an interrupted syscall (`r < -1 && errno == EINTR`), or a hard
read error (`r <= -1`). -/
inductive ReadlineRes where
  | ok (s : String)
  | intr
  | err

/-- Environment supplying the results of the fallible terminal-driver calls
made by the command dispatch: `term_apply` on the serial fd,
`term_pulse_dtr`, `term_raise_dtr`, `term_lower_dtr`, and the filename
prompt. -/
structure Env where
  applyOk : Bool
  pulseOk : Bool
  raiseOk : Bool
  lowerOk : Bool
  readline : ReadlineRes

/-- An environment in which every driver call succeeds. -/
def envOk : Env :=
  { applyOk := true, pulseOk := true, raiseOk := true, lowerOk := true
    readline := .ok "" }

/-- An environment in which `term_apply` on the serial fd fails. -/
def envFail : Env :=
  { envOk with applyOk := false }

/-- Observable effects of processing terminal input: bytes written to the
controlling-terminal output, external commands handed off via `run_cmd`
(each as its variadic argument list), whether the loop returned, and
whether `fatal` was invoked. -/
structure StepOut where
  stdout : String := ""
  cmds : List (List String) := []
  quit : Bool := false
  fatal : Bool := false

/-- Command keys (picocom.c lines 49–62). -/
def KEY_EXIT : Nat := 0x18

def KEY_QUIT : Nat := 0x11

def KEY_PULSE : Nat := 0x10

def KEY_TOGGLE : Nat := 0x14

def KEY_BAUD_UP : Nat := 0x15

def KEY_BAUD_DN : Nat := 0x04

def KEY_FLOW : Nat := 0x06

def KEY_PARITY : Nat := 0x19

def KEY_BITS : Nat := 0x02

def KEY_STATUS : Nat := 0x16

def KEY_SEND : Nat := 0x13

def KEY_RECEIVE : Nat := 0x12

def KEY_BREAK : Nat := 0x1c

def KEY_TIMESTAMP : Nat := 0x09

/-- The status block printed by the `KEY_STATUS` branch (picocom.c lines
577–585). -/
def statusStr (st : LoopSt) : String :=
  "\r\n"
  ++ "*** baud: " ++ toString st.opts.baud ++ "\r\n"
  ++ "*** flow: " ++ st.opts.flow_str ++ "\r\n"
  ++ "*** parity: " ++ st.opts.parity_str ++ "\r\n"
  ++ "*** databits: " ++ toString st.opts.databits ++ "\r\n"
  ++ "*** dtr: " ++ (if st.dtr_up then "up" else "down") ++ "\r\n"
  ++ "*** timestamp: " ++ (if st.tty_time_enable ≠ 0 then "on" else "off") ++ "\r\n"

/-- The `switch (c)` of the `ST_COMMAND` branch (picocom.c lines 568–680),
entered after `state = ST_TRANSPARENT` has already been assigned; `st`
already carries `ci = ST_TRANSPARENT`.  The `term_set_*`/`term_flush`/
`term_erase` driver calls mutate only driver-internal state and are not
tracked; the result of `term_apply` and of the DTR calls comes from `env`.
The local echo of `fd_readline` is not included in `stdout`. -/
def commandSwitch (env : Env) (st : LoopSt) (c : Nat) : LoopSt × StepOut :=
  if c = KEY_EXIT then
    (st, { quit := true })
  else if c = KEY_QUIT then
    (st, { quit := true })
  else if c = KEY_STATUS then
    (st, { stdout := statusStr st })
  else if c = KEY_PULSE then
    (st, { stdout := "\r\n*** pulse DTR ***\r\n"
                     ++ if env.pulseOk then "" else "*** FAILED\r\n" })
  else if c = KEY_TOGGLE then
    let r := if st.dtr_up then env.lowerOk else env.raiseOk
    let dtr := if r then !st.dtr_up else st.dtr_up
    ({ st with dtr_up := dtr },
     { stdout := "\r\n*** DTR: " ++ (if dtr then "up" else "down") ++ " ***\r\n" })
  else if c = KEY_BAUD_UP then
    let newbaud := baud_up st.opts.baud
    let opts := if env.applyOk then { st.opts with baud := newbaud } else st.opts
    ({ st with opts := opts, q := { st.q with len := 0 } },
     { stdout := "\r\n*** baud: " ++ toString opts.baud ++ " ***\r\n" })
  else if c = KEY_BAUD_DN then
    let newbaud := baud_down st.opts.baud
    let opts := if env.applyOk then { st.opts with baud := newbaud } else st.opts
    ({ st with opts := opts, q := { st.q with len := 0 } },
     { stdout := "\r\n*** baud: " ++ toString opts.baud ++ " ***\r\n" })
  else if c = KEY_FLOW then
    let nf := flow_next st.opts.flow
    let opts := if env.applyOk then
        { st.opts with flow := nf.1, flow_str := nf.2 }
      else st.opts
    ({ st with opts := opts, q := { st.q with len := 0 } },
     { stdout := "\r\n*** flow: " ++ opts.flow_str ++ " ***\r\n" })
  else if c = KEY_PARITY then
    let np := parity_next st.opts.parity
    let opts := if env.applyOk then
        { st.opts with parity := np.1, parity_str := np.2 }
      else st.opts
    ({ st with opts := opts, q := { st.q with len := 0 } },
     { stdout := "\r\n*** parity: " ++ opts.parity_str ++ " ***\r\n" })
  else if c = KEY_BITS then
    let newbits := bits_next st.opts.databits
    let opts := if env.applyOk then { st.opts with databits := newbits } else st.opts
    ({ st with opts := opts, q := { st.q with len := 0 } },
     { stdout := "\r\n*** databits: " ++ toString opts.databits ++ " ***\r\n" })
  else if c = KEY_SEND then
    match env.readline with
    | .intr => (st, { stdout := "\r\n*** file: " ++ "\r\n" })
    | .err => (st, { stdout := "\r\n*** file: " ++ "\r\n", fatal := true })
    | .ok fname =>
      (st, { stdout := "\r\n*** file: " ++ "\r\n"
             cmds := [[st.opts.send_cmd, fname]] })
  else if c = KEY_RECEIVE then
    match env.readline with
    | .intr => (st, { stdout := "*** file: " ++ "\r\n" })
    | .err => (st, { stdout := "*** file: " ++ "\r\n", fatal := true })
    | .ok fname =>
      (st, { stdout := "*** file: " ++ "\r\n"
             cmds := [if fname = "" then [st.opts.receive_cmd]
                      else [st.opts.send_cmd, fname]] })
  else if c = KEY_BREAK then
    (st, { stdout := "\r\n*** break sent ***\r\n" })
  else if c = KEY_TIMESTAMP then
    if st.tty_time_enable ≠ 0 then
      ({ st with tty_time_enable := 0 },
       { stdout := "\r\n*** Time Stamp Disable ***\r\n" })
    else
      ({ st with tty_time_enable := 1, tty_time := 2 },
       { stdout := "\r\n*** Time Stamp Enable ***\r\n" })
  else
    (st, {})

/-- Processing of one byte read from the controlling terminal (picocom.c
lines 555–697). -/
def handleStdin (env : Env) (st : LoopSt) (c : Nat) : LoopSt × StepOut :=
  match st.ci with
  | .ST_COMMAND =>
    if c = st.opts.escape then
      let r := tq_put st.q c
      ({ st with ci := .ST_TRANSPARENT, q := r.1 }, { stdout := r.2 })
    else
      commandSwitch env { st with ci := .ST_TRANSPARENT } c
  | .ST_TRANSPARENT =>
    if c = st.opts.escape then
      ({ st with ci := .ST_COMMAND }, {})
    else
      let r := tq_put st.q c
      ({ st with q := r.1 }, { stdout := r.2 })

/-- Processing of a sequence of controlling-terminal bytes, accumulating the
observable output; a `return` from the loop or a `fatal` stops the run. -/
def processStdin (env : Env) (st : LoopSt) : List Nat → LoopSt × StepOut
  | [] => (st, {})
  | c :: rest =>
    let r1 := handleStdin env st c
    if r1.2.quit ∨ r1.2.fatal then r1
    else
      let r2 := processStdin env r1.1 rest
      (r2.1, { stdout := r1.2.stdout ++ r2.2.stdout
               cmds := r1.2.cmds ++ r2.2.cmds
               quit := r2.2.quit
               fatal := r2.2.fatal })

/-- Zero-padding to a fixed width, as C `sprintf` does for `%02d`/`%03d`
with non-negative arguments. -/
def pad0 (w : Nat) (s : String) : String :=
  String.mk (List.replicate (w - s.length) '0') ++ s

/-- The timestamp text built at picocom.c line 726:
`sprintf(s, "\x1B[36m" "%d:%02d.%03d " "\x1B[0m", diff_sec/60, diff_sec%60,
diff_msec)`.  `diff_sec` and `diff_msec` are non-negative (`unsigned`), so
`/` and `%` here are plain division and remainder. -/
def tsStamp (dsec dmsec : Int) : String :=
  "\x1B[36m" ++ toString (dsec / 60) ++ ":" ++ pad0 2 (toString (dsec % 60))
  ++ "." ++ pad0 3 (toString dmsec) ++ " " ++ "\x1B[0m"

/-- Processing of one byte read from the serial port (picocom.c lines
700–741): the timestamp annotator followed by the write of the byte to the
controlling-terminal output.  `tv` is the value `gettimeofday` produced for
this iteration.  Returns the new state and the bytes written to the screen. -/
def serialIn (st : LoopSt) (tv : TimeVal) (c : Nat) : LoopSt × String :=
  let r :=
    if st.tty_time_enable ≠ 0 ∧ st.tty_time ≠ 0 then
      let ref := if st.tty_time = 2 then tv else st.tv_ref
      if c ≠ 10 ∧ c ≠ 13 then
        let dsec0 := wrap32u (tv.sec - ref.sec)
        let dd :=
          if cdiv tv.usec 1000 < cdiv ref.usec 1000 then
            (wrap32u (dsec0 - 1),
             wrap32u (1000 + cdiv tv.usec 1000 - cdiv ref.usec 1000))
          else
            (dsec0, wrap32u (cdiv (tv.usec - ref.usec) 1000))
        ({ st with tv_ref := ref, tty_time := 0 }, tsStamp dd.1 dd.2)
      else
        ({ st with tv_ref := ref }, "")
    else (st, "")
  let st2 := if c = 10 ∨ c = 13 then { r.1 with tty_time := 1 } else r.1
  (st2, r.2 ++ String.singleton (Char.ofNat c))

/-- Processing of a sequence of serial bytes, each paired with the wall time
at which it is read, concatenating the screen output. -/
def runSerial (st : LoopSt) : List (Nat × TimeVal) → LoopSt × String
  | [] => (st, "")
  | b :: rest =>
    let r1 := serialIn st b.2 b.1
    let r2 := runSerial r1.1 rest
    (r2.1, r1.2 ++ r2.2)

/-- `fd_readline` (picocom.c lines 258–294), driven by the list of bytes the
reads deliver.  `buf` holds the bytes between `b` and the cursor `bp`;
`bsz` is the buffer size, so the cursor test `bp < bpe` is
`buf.length < bsz - 1`.  `out` accumulates the bytes echoed through `cput`.
Running out of input models `read` returning `r <= 0` (an error, `none`);
a `\r` (13) terminates the line and returns the buffer. -/
def fd_readline (bsz : Nat) (buf out : List Nat) :
    List Nat → Option (List Nat) × List Nat
  | [] => (none, out)
  | c :: rest =>
    if c = 8 then
      if 0 < buf.length then
        fd_readline bsz buf.dropLast (out ++ [8, 32, 8]) rest
      else
        fd_readline bsz buf (out ++ [7]) rest
    else if c = 13 then
      (some buf, out)
    else
      if buf.length < bsz - 1 then
        fd_readline bsz (buf ++ [c]) (out ++ [c]) rest
      else
        fd_readline bsz buf (out ++ [7]) rest

/-- `listStarts p l` holds when `p` is an initial segment of `l`. -/
def listStarts : List Char → List Char → Bool
  | [], _ => true
  | _ :: _, [] => false
  | a :: p, b :: l => a = b && listStarts p l

/-- `strContains s pat`: `pat` occurs as a contiguous substring of `s`. -/
def strContains (s pat : String) : Bool :=
  (List.range (s.length + 1)).any fun i => listStarts pat.toList (s.toList.drop i)

/-- A state sitting in `ST_COMMAND` with everything else at its initial
value (reached from `initSt` by typing the escape byte). -/
def stCmd : LoopSt :=
  { initSt with ci := .ST_COMMAND }

/-- The screen output demanded by scenario S6 of the specification. -/
def claimedTS : String :=
  "\x1B[36m0:00.250 \x1B[0mX\n\x1B[36m0:00.500 \x1B[0mY"

/-- A loop state with timestamping enabled, the annotator awaiting a line
start, and the reference clock holding 10.000s. -/
def stTS : LoopSt :=
  { initSt with tty_time_enable := 1, tty_time := 1, tv_ref := ⟨10, 0⟩ }

/-- The line printed by a reconfiguration command: current value of the
affected parameter. -/
def reconfLine (o : Opts) (c : Nat) : String :=
  if c = KEY_BAUD_UP ∨ c = KEY_BAUD_DN then
    "\r\n*** baud: " ++ toString o.baud ++ " ***\r\n"
  else if c = KEY_FLOW then
    "\r\n*** flow: " ++ o.flow_str ++ " ***\r\n"
  else if c = KEY_PARITY then
    "\r\n*** parity: " ++ o.parity_str ++ " ***\r\n"
  else
    "\r\n*** databits: " ++ toString o.databits ++ " ***\r\n"

/-! ## Theorems -/

/-- Appending through the source's queue-put snippet extends the queued
bytes by the new byte when the length guard passes. -/
theorem liveBytes_tq_put (q : TtyQ) (c : Nat) (h : q.len ≤ TTY_Q_SZ) :
    liveBytes (tq_put q c).1 = liveBytes q ++ [c] := by
  unfold tq_put liveBytes
  rw [if_pos h]
  simp only [List.range_succ, List.map_append, List.map_cons, List.map_nil,
    if_pos rfl]
  congr 1
  apply List.map_congr_left
  intro a ha
  have hlt : a < q.len := List.mem_range.mp ha
  simp [Nat.ne_of_lt hlt]

/-- C6: round-trip of the baud walker on the interior of the allowed ladder,
and its boundary values: `baud_up (baud_down b) = b` for every ladder value
except the endpoints 300 and 115200; `baud_up 115200 = 115200`,
`baud_down 300 = 300`, `baud_up 200 = 300`, `baud_up 38400 = 57600`. -/
theorem baud_ladder_roundtrip :
    baud_up (baud_down 600) = 600
    ∧ baud_up (baud_down 1200) = 1200
    ∧ baud_up (baud_down 2400) = 2400
    ∧ baud_up (baud_down 4800) = 4800
    ∧ baud_up (baud_down 9600) = 9600
    ∧ baud_up (baud_down 19200) = 19200
    ∧ baud_up (baud_down 38400) = 38400
    ∧ baud_up (baud_down 57600) = 57600
    ∧ baud_up 115200 = 115200
    ∧ baud_down 300 = 300
    ∧ baud_up 200 = 300
    ∧ baud_up 38400 = 57600 := by
  decide

/-- C9 (counterexample): for the 32-bit `int` argument 2^30 — above 115200
and off the ladder, as the claim allows — `baud_up` doubles into signed
overflow, wraps to -2^31, escapes the `> 115200` clamp, and so returns a
value far outside [300, 115200]. -/
theorem baud_up_overflow_cex :
    baud_up (2 ^ 30) = -(2 ^ 31)
    ∧ ¬ (300 ≤ baud_up (2 ^ 30) ∧ baud_up (2 ^ 30) ≤ 115200) := by
  decide

/-- C9 (amended): for every 32-bit `int` input, `baud_down` returns a value
in [300, 115200]; `baud_up` does so provided its doubling does not overflow,
i.e. for inputs at most 2^30 - 1 (zero, negative and off-ladder values
included). -/
theorem baud_range_no_overflow (b : Int)
    (h1 : -(2 ^ 31) ≤ b) (h2 : b < 2 ^ 31) :
    (300 ≤ baud_down b ∧ baud_down b ≤ 115200)
    ∧ (b ≤ 2 ^ 30 - 1 → 300 ≤ baud_up b ∧ baud_up b ≤ 115200) := by
  simp only [baud_down, baud_up, cdiv, wrap32]
  constructor
  · split_ifs <;> omega
  · intro hb
    split_ifs <;> omega

/-- C9 (witness): the amended range theorem applied at the concrete 32-bit
input 1000000. -/
theorem baud_range_no_overflow_wit :
    (-(2 ^ 31) ≤ (1000000 : Int) ∧ (1000000 : Int) < 2 ^ 31
      ∧ (1000000 : Int) ≤ 2 ^ 30 - 1)
    ∧ (300 ≤ baud_down 1000000 ∧ baud_down 1000000 ≤ 115200)
    ∧ (300 ≤ baud_up 1000000 ∧ baud_up 1000000 ≤ 115200) :=
  ⟨by decide,
   (baud_range_no_overflow 1000000 (by decide) (by decide)).1,
   (baud_range_no_overflow 1000000 (by decide) (by decide)).2 (by decide)⟩

set_option maxRecDepth 8000 in
/-- C1: evaluation of the loop at the failing input.  After 257 consecutive
non-escape bytes ('A') typed in Transparent state with the serial port never
writable, the queue guard `tty_q.len <= TTY_Q_SZ` has admitted a byte at
length 256: the length reaches 257 (outside the claimed range [0, 256]), the
257th byte is stored at index 256 — one past the end of the 256-byte
buffer — and no BEL is ever emitted.  The claimed invariant is violated by
the code. -/
theorem overrun_at_capacity :
    (processStdin envOk initSt (List.replicate 257 65)).1.q.len = 257
    ∧ (processStdin envOk initSt (List.replicate 257 65)).1.q.buff 256 = 65
    ∧ (processStdin envOk initSt (List.replicate 257 65)).2.stdout = "" := by
  decide

/-- C3: evaluation of the status command at the default configuration.  The
input `\x01\x16` from the initial state produces a status block containing
"baud: 115200", "flow: none", "parity: none", "databits: 8" and "dtr: down"
and leaves the queue empty, as the claim says — but it contains
"timestamp: on", not the claimed "timestamp: off", because the source
initializes `tty_time_enable` to 2 (truthy). -/
theorem status_default_timestamp_on :
    strContains (processStdin envOk initSt [1, KEY_STATUS]).2.stdout
      "baud: 115200" = true
    ∧ strContains (processStdin envOk initSt [1, KEY_STATUS]).2.stdout
      "flow: none" = true
    ∧ strContains (processStdin envOk initSt [1, KEY_STATUS]).2.stdout
      "parity: none" = true
    ∧ strContains (processStdin envOk initSt [1, KEY_STATUS]).2.stdout
      "databits: 8" = true
    ∧ strContains (processStdin envOk initSt [1, KEY_STATUS]).2.stdout
      "dtr: down" = true
    ∧ strContains (processStdin envOk initSt [1, KEY_STATUS]).2.stdout
      "timestamp: on" = true
    ∧ strContains (processStdin envOk initSt [1, KEY_STATUS]).2.stdout
      "timestamp: off" = false
    ∧ (processStdin envOk initSt [1, KEY_STATUS]).1.q.len = 0 := by
  decide

/-- C2 (counterexample): from the initial state, the input `\x01\x15`
(escape, Ctrl-U) with `term_apply` failing leaves the session configuration
unchanged — but the confirmation line `\r\n*** baud: 115200 ***\r\n`
(showing the old value) is printed, refuting the claim that nothing is
printed on a failed reconfiguration. -/
theorem reconfig_fail_prints_cex :
    (processStdin envFail initSt [1, KEY_BAUD_UP]).1.opts = initSt.opts
    ∧ (processStdin envFail initSt [1, KEY_BAUD_UP]).2.stdout
        = "\r\n*** baud: 115200 ***\r\n"
    ∧ ¬ (processStdin envFail initSt [1, KEY_BAUD_UP]).2.stdout = "" := by
  decide

/-- C2 (amended): for every reconfiguration command (Ctrl-U, Ctrl-D, Ctrl-F,
Ctrl-Y, Ctrl-B) received in Command state, if `term_apply` on the serial fd
fails then the session configuration (baud, flow, parity, databits) is left
unchanged, the outbound queue is cleared, and the one-line message printed to
the controlling-terminal output shows the unchanged current value. -/
theorem reconfig_fail_keeps_config (env : Env) (st : LoopSt) (c : Nat)
    (hA : env.applyOk = false) (hS : st.ci = CIState.ST_COMMAND)
    (hE : c ≠ st.opts.escape)
    (hK : c = KEY_BAUD_UP ∨ c = KEY_BAUD_DN ∨ c = KEY_FLOW
          ∨ c = KEY_PARITY ∨ c = KEY_BITS) :
    (handleStdin env st c).1.opts = st.opts
    ∧ (handleStdin env st c).2.stdout = reconfLine st.opts c
    ∧ (handleStdin env st c).1.q.len = 0 := by
  obtain ⟨o, q, ci, d, tte, tt, tvr⟩ := st
  simp only at hS hE
  subst hS
  rcases hK with rfl | rfl | rfl | rfl | rfl <;>
    simp only [KEY_EXIT, KEY_QUIT, KEY_STATUS, KEY_PULSE, KEY_TOGGLE,
      KEY_BAUD_UP, KEY_BAUD_DN, KEY_FLOW, KEY_PARITY, KEY_BITS, KEY_SEND,
      KEY_RECEIVE, KEY_BREAK, KEY_TIMESTAMP] at hE ⊢ <;>
    simp [handleStdin, commandSwitch, reconfLine, hA, hE,
      KEY_EXIT, KEY_QUIT, KEY_STATUS, KEY_PULSE, KEY_TOGGLE, KEY_BAUD_UP,
      KEY_BAUD_DN, KEY_FLOW, KEY_PARITY, KEY_BITS, KEY_SEND, KEY_RECEIVE,
      KEY_BREAK, KEY_TIMESTAMP]

/-- C2 (witness): the amended theorem applied to Ctrl-U in Command state at
the default configuration with a failing `term_apply`. -/
theorem reconfig_fail_keeps_config_wit :
    (envFail.applyOk = false ∧ stCmd.ci = CIState.ST_COMMAND
      ∧ KEY_BAUD_UP ≠ stCmd.opts.escape)
    ∧ (handleStdin envFail stCmd KEY_BAUD_UP).1.opts = stCmd.opts
    ∧ (handleStdin envFail stCmd KEY_BAUD_UP).2.stdout
        = reconfLine stCmd.opts KEY_BAUD_UP
    ∧ (handleStdin envFail stCmd KEY_BAUD_UP).1.q.len = 0 :=
  ⟨⟨rfl, rfl, by decide⟩,
   reconfig_fail_keeps_config envFail stCmd KEY_BAUD_UP rfl rfl (by decide)
     (Or.inl rfl)⟩

/-- C5: for every escape byte `E`, starting in Transparent state with the
outbound queue below capacity 256, the input `E E` appends exactly one byte
`E` to the outbound queue, executes no command (no hand-off, no return, no
`fatal`, no output, configuration untouched), and leaves the interpreter in
Transparent state. -/
theorem escape_escape_queues_literal (env : Env) (st : LoopSt) (E : Nat)
    (h1 : st.ci = CIState.ST_TRANSPARENT) (h2 : st.opts.escape = E)
    (h3 : st.q.len < 256) :
    (processStdin env st [E, E]).1.ci = CIState.ST_TRANSPARENT
    ∧ liveBytes (processStdin env st [E, E]).1.q = liveBytes st.q ++ [E]
    ∧ (processStdin env st [E, E]).1.opts = st.opts
    ∧ (processStdin env st [E, E]).2.cmds = []
    ∧ (processStdin env st [E, E]).2.quit = false
    ∧ (processStdin env st [E, E]).2.fatal = false
    ∧ (processStdin env st [E, E]).2.stdout = "" := by
  obtain ⟨o, q, ci, d, tte, tt, tvr⟩ := st
  simp only at h1 h2 h3
  subst h1
  subst h2
  have h4 : q.len ≤ TTY_Q_SZ := Nat.le_of_lt h3
  have hput : tq_put q o.escape
      = ({ len := q.len + 1,
           buff := fun i => if i = q.len then o.escape else q.buff i }, "") := by
    unfold tq_put
    rw [if_pos h4]
  have h5 := liveBytes_tq_put q o.escape h4
  rw [hput] at h5
  simp [processStdin, handleStdin, hput, h5]

/-- C5 (witness): the escape-escape theorem at the initial state with the
default escape byte 0x01. -/
theorem escape_escape_queues_literal_wit :
    (initSt.ci = CIState.ST_TRANSPARENT ∧ initSt.opts.escape = 1
      ∧ initSt.q.len < 256)
    ∧ (processStdin envOk initSt [1, 1]).1.ci = CIState.ST_TRANSPARENT
    ∧ liveBytes (processStdin envOk initSt [1, 1]).1.q = liveBytes initSt.q ++ [1]
    ∧ (processStdin envOk initSt [1, 1]).1.opts = initSt.opts
    ∧ (processStdin envOk initSt [1, 1]).2.cmds = []
    ∧ (processStdin envOk initSt [1, 1]).2.quit = false
    ∧ (processStdin envOk initSt [1, 1]).2.fatal = false
    ∧ (processStdin envOk initSt [1, 1]).2.stdout = "" :=
  ⟨⟨rfl, rfl, by decide⟩,
   escape_escape_queues_literal envOk initSt 1 rfl rfl (by decide)⟩

/-- C7: after the Ctrl-R command's filename prompt, a non-empty filename
hands off with `send_cmd` followed by the filename, and an empty filename
hands off with `receive_cmd` alone. -/
theorem receive_key_dispatch (env : Env) (st : LoopSt) (fname : String)
    (h1 : st.ci = CIState.ST_COMMAND) (h2 : KEY_RECEIVE ≠ st.opts.escape)
    (h3 : env.readline = ReadlineRes.ok fname) :
    (fname = "" →
      (handleStdin env st KEY_RECEIVE).2.cmds = [[st.opts.receive_cmd]])
    ∧ (fname ≠ "" →
      (handleStdin env st KEY_RECEIVE).2.cmds = [[st.opts.send_cmd, fname]]) := by
  obtain ⟨o, q, ci, d, tte, tt, tvr⟩ := st
  simp only at h1 h2
  subst h1
  simp only [KEY_RECEIVE] at h2 ⊢
  constructor <;> intro hf <;>
    simp [handleStdin, commandSwitch, h2, h3, hf,
      KEY_EXIT, KEY_QUIT, KEY_STATUS, KEY_PULSE, KEY_TOGGLE, KEY_BAUD_UP,
      KEY_BAUD_DN, KEY_FLOW, KEY_PARITY, KEY_BITS, KEY_SEND, KEY_RECEIVE,
      KEY_BREAK, KEY_TIMESTAMP]

/-- C7 (witness): Ctrl-R with the non-empty filename "abc" at the default
configuration invokes `send_cmd` ("ascii_xfr -s -v -l10") with the filename. -/
theorem receive_key_dispatch_wit :
    ("abc" ≠ "")
    ∧ (handleStdin { envOk with readline := ReadlineRes.ok "abc" } stCmd
        KEY_RECEIVE).2.cmds = [[stCmd.opts.send_cmd, "abc"]] :=
  ⟨by decide,
   (receive_key_dispatch { envOk with readline := ReadlineRes.ok "abc" } stCmd
     "abc" rfl (by decide) rfl).2 (by decide)⟩

/-- C8: after a successful serial write of `n` bytes, `1 ≤ n ≤ len`, the
queue holds exactly the previously unwritten bytes — the bytes that were at
indices `n … len-1` now sit at indices `0 … len-n-1` —, its length is
`len - n`, and the FIFO order of the queued bytes is preserved (the new
queue content is the `n`-byte tail drop of the old content). -/
theorem drain_shifts_queue (q : TtyQ) (n : Nat)
    (_h1 : 1 ≤ n) (_h2 : n ≤ q.len) :
    (tq_drain q n).len = q.len - n
    ∧ liveBytes (tq_drain q n) = (liveBytes q).drop n
    ∧ ∀ i, i < q.len - n → (tq_drain q n).buff i = q.buff (n + i) := by
  refine ⟨rfl, ?_, ?_⟩
  · apply List.ext_getElem
    · simp [liveBytes, tq_drain]
    · intro i hi1 hi2
      simp only [liveBytes, tq_drain, List.getElem_drop, List.getElem_map,
        List.getElem_range]
      have hlen : i < q.len - n := by
        simpa [liveBytes, tq_drain] using hi1
      rw [if_pos hlen]
  · intro i hi
    simp only [tq_drain]
    rw [if_pos hi]

/-- C8 (witness): draining 2 bytes from the 3-byte queue holding 0,1,2
leaves the single byte 2 at the front. -/
theorem drain_shifts_queue_wit :
    (1 ≤ 2 ∧ 2 ≤ (TtyQ.mk 3 (fun i => i)).len)
    ∧ (tq_drain (TtyQ.mk 3 (fun i => i)) 2).len = (TtyQ.mk 3 (fun i => i)).len - 2
    ∧ liveBytes (tq_drain (TtyQ.mk 3 (fun i => i)) 2)
        = (liveBytes (TtyQ.mk 3 (fun i => i))).drop 2 :=
  ⟨⟨by decide, by decide⟩,
   (drain_shifts_queue (TtyQ.mk 3 (fun i => i)) 2 (by decide) (by decide)).1,
   (drain_shifts_queue (TtyQ.mk 3 (fun i => i)) 2 (by decide) (by decide)).2.1⟩

/-- C10: `fd_readline` never stores more than `bsz - 1` bytes in the caller's
buffer: from any reachable buffer content the returned line has length at
most `bsz - 1`; a byte arriving with the buffer full is dropped and answered
with a BEL (0x07); and a backspace (0x08) arriving with the buffer empty
emits a BEL, erases nothing and leaves the buffer empty. -/
theorem fd_readline_bounds (bsz : Nat) (_hb : 1 ≤ bsz) :
    (∀ inp buf out b o, buf.length ≤ bsz - 1 →
      fd_readline bsz buf out inp = (some b, o) → b.length ≤ bsz - 1)
    ∧ (∀ c rest buf out, c ≠ 8 → c ≠ 13 → buf.length = bsz - 1 →
      fd_readline bsz buf out (c :: rest)
        = fd_readline bsz buf (out ++ [7]) rest)
    ∧ (∀ rest out,
      fd_readline bsz [] out (8 :: rest)
        = fd_readline bsz [] (out ++ [7]) rest) := by
  refine ⟨?_, ?_, ?_⟩
  · intro inp
    induction inp with
    | nil =>
      intro buf out b o _ heq
      simp [fd_readline] at heq
    | cons c rest ih =>
      intro buf out b o hlen heq
      rw [fd_readline] at heq
      by_cases hc8 : c = 8
      · rw [if_pos hc8] at heq
        by_cases hb0 : 0 < buf.length
        · rw [if_pos hb0] at heq
          exact ih _ _ _ _ (le_trans (by simp [Nat.sub_le]) hlen) heq
        · rw [if_neg hb0] at heq
          exact ih _ _ _ _ hlen heq
      · rw [if_neg hc8] at heq
        by_cases hc13 : c = 13
        · rw [if_pos hc13] at heq
          simp only [Prod.mk.injEq, Option.some.injEq] at heq
          rw [← heq.1]
          exact hlen
        · rw [if_neg hc13] at heq
          by_cases hroom : buf.length < bsz - 1
          · rw [if_pos hroom] at heq
            exact ih _ _ _ _ (by simpa using hroom) heq
          · rw [if_neg hroom] at heq
            exact ih _ _ _ _ hlen heq
  · intro c rest buf out hc8 hc13 hfull
    rw [fd_readline, if_neg hc8, if_neg hc13, if_neg (by omega)]
  · intro rest out
    rw [fd_readline, if_pos rfl, if_neg (by simp)]

/-- C10 (witness): with a 2-byte buffer, a backspace on the empty buffer
answers with a BEL and stores nothing. -/
theorem fd_readline_bounds_wit :
    (1 ≤ 2)
    ∧ fd_readline 2 [] [] [8, 13] = fd_readline 2 [] ([] ++ [7]) [13] :=
  ⟨by decide, (fd_readline_bounds 2 (by decide)).2.2 [13] []⟩

/-- C4 (counterexample): enabling timestamping via Ctrl-I does not snapshot
`t_ref` at that moment.  From program start, `\x01\x09 \x01\x09` disables
then re-enables timestamping, leaving the annotator in the Reset state; the
serial bytes `X` at 10.250s, `\n`, `Y` at 10.500s then produce
`0:00.000` before `X` (the reference clock is snapshotted only when `X`
itself arrives) and `0:00.250` before `Y` — not the claimed
`0:00.250` / `0:00.500` output. -/
theorem timestamp_reset_cex :
    (processStdin envOk initSt [1, 9, 1, 9]).1.tty_time_enable = 1
    ∧ (processStdin envOk initSt [1, 9, 1, 9]).1.tty_time = 2
    ∧ (runSerial (processStdin envOk initSt [1, 9, 1, 9]).1
        [(88, ⟨10, 250000⟩), (10, ⟨10, 250000⟩), (89, ⟨10, 500000⟩)]).2
      = "\x1B[36m0:00.000 \x1B[0mX\n\x1B[36m0:00.250 \x1B[0mY"
    ∧ (runSerial (processStdin envOk initSt [1, 9, 1, 9]).1
        [(88, ⟨10, 250000⟩), (10, ⟨10, 250000⟩), (89, ⟨10, 500000⟩)]).2
      ≠ claimedTS := by
  decide

/-- C4 (amended): with timestamping enabled, the reference clock `t_ref` is
snapshotted when the first non-newline serial byte after enabling arrives
(that byte is prefixed `0:00.000` and the annotator leaves Reset); once
`t_ref` holds 10.000s and the annotator awaits a line start, the serial
bytes `X` at 10.250s, `\n`, `Y` at 10.500s produce exactly
`\x1b[36m0:00.250 \x1b[0mX\n\x1b[36m0:00.500 \x1b[0mY`: each line's first
non-newline byte is preceded by exactly one minutes:seconds.millis prefix
relative to `t_ref`. -/
theorem timestamp_lines (st : LoopSt) (h1 : st.tty_time_enable ≠ 0)
    (h2 : st.tty_time = 1) (h3 : st.tv_ref = ⟨10, 0⟩) :
    (runSerial st
      [(88, ⟨10, 250000⟩), (10, ⟨10, 250000⟩), (89, ⟨10, 500000⟩)]).2
      = claimedTS
    ∧ ∀ tv c, c ≠ 10 → c ≠ 13 →
        (serialIn { st with tty_time := 2 } tv c).1.tv_ref = tv
        ∧ (serialIn { st with tty_time := 2 } tv c).1.tty_time = 0
        ∧ (serialIn { st with tty_time := 2 } tv c).2
            = "\x1B[36m0:00.000 \x1B[0m" ++ String.singleton (Char.ofNat c) := by
  obtain ⟨o, q, ci, d, tte, tt, tvr⟩ := st
  simp only at h1 h2 h3
  subst h2
  subst h3
  constructor
  · simp [runSerial, serialIn, cdiv, wrap32u, tsStamp, pad0, h1, claimedTS]
    rfl
  · intro tv c hc10 hc13
    have hts : tsStamp 0 0 = "\x1B[36m0:00.000 \x1B[0m" := by decide
    simp [serialIn, cdiv, wrap32u, h1, hc10, hc13, sub_self, lt_irrefl, hts]

/-- C4 (witness): the amended timestamp theorem at a concrete enabled state
whose reference clock holds 10.000s. -/
theorem timestamp_lines_wit :
    (stTS.tty_time_enable ≠ 0 ∧ stTS.tty_time = 1 ∧ stTS.tv_ref = ⟨10, 0⟩)
    ∧ (runSerial stTS
        [(88, ⟨10, 250000⟩), (10, ⟨10, 250000⟩), (89, ⟨10, 500000⟩)]).2
      = claimedTS :=
  ⟨⟨by decide, rfl, rfl⟩, (timestamp_lines stTS (by decide) rfl rfl).1⟩

end Picocom
